import Mathlib

/-!
Verification of `src/Telegram/SourceFiles/rpl/mappers.h` (Telegram Desktop,
namespace `rpl`): a compile-time "argument mapper" mini-language of composable
callables.  Argument lists are shallowly embedded as `List α` over a value type
`α`; a call that C++ overload resolution would reject (SFINAE, `enable_if`) is
embedded as `Option.none`.
-/

namespace rpl

namespace details

/-- Embeds `argument_mapper<Index>` (mappers.h lines 34-70): the positional
selector family.  The C++ entity is a type indexed by `Index`; here it is a
structure holding that index. -/
structure argument_mapper where
  Index : Nat
deriving DecidableEq

/-- Embeds the static member `argument_mapper<Index>::call(Arg &&arg,
Args &&...args)`.  The primary template (`Index >= 1`) is enabled only when
`sizeof...(Args) >= Index`, i.e. the tail has at least `Index` elements, and
forwards to `argument_mapper<Index - 1>::call(rest...)`; the `Index = 0`
specialization returns the first argument.  Both overloads require at least one
argument, so on an empty list no candidate is viable (`none`). -/
def argument_mapper.call {α : Type} : Nat → List α → Option α
  | 0, arg :: _ => some arg
  | n + 1, _ :: rest => if n + 1 ≤ rest.length then argument_mapper.call n rest else none
  | _, [] => none

/-- Embeds `argument_mapper<Index>::operator()(Args &&...args)`: enabled only
when `sizeof...(Args) > Index` (the whole list is longer than the index), in
which case it returns `call(args...)`; otherwise the call is not viable
(`none`).  The `Index = 0` specialization returns its first argument directly,
which agrees with `call 0`. -/
def argument_mapper.apply {α : Type} (m : argument_mapper) (args : List α) : Option α :=
  if m.Index < args.length then argument_mapper.call m.Index args else none

/-- Embeds `value_mapper<Type>` (mappers.h lines 72-88): stores one value,
captured at construction (`_value(std::forward<OtherType>(value))`). -/
structure value_mapper (β : Type) where
  value : β

/-- Embeds `value_mapper<Type>::operator()(Args &&...args)`: viable for every
argument list (no `enable_if`), ignores the arguments and returns a copy of the
stored value (the return type is `auto`, hence by value). -/
def value_mapper.apply {β : Type} (m : value_mapper β) {α : Type} (_args : List α) : β :=
  m.value

/-- Embeds `make_value_mapper` (mappers.h lines 90-93): builds a
`value_mapper<std::decay_t<Type>>` holding the forwarded value. -/
def make_value_mapper {β : Type} (value : β) : value_mapper β :=
  ⟨value⟩

/-- Syntax trees of the mapper algebra: the four variants deriving from
`base_mapper`.  `arg` is `argument_mapper<Index>`, `val` is
`value_mapper<Type>`, `unary` is `unary_operator_mapper<Type, Operator>`
(mappers.h lines 106-128) and `binary` is
`binary_operator_mapper<Left, Right, Operator>` (lines 130-157).  The composer
constructors store their operands already wrapped (`wrap_mapper_t` members
`_value`, `_left`, `_right`), which is why the children here are mappers.
`α` is the type of the call arguments, the second index the result type. -/
inductive mapper (α : Type) : Type → Type 1 where
  | arg : argument_mapper → mapper α α
  | val : {β : Type} → value_mapper β → mapper α β
  | unary : {β γ : Type} → (β → γ) → mapper α β → mapper α γ
  | binary : {β γ δ : Type} → (β → γ → δ) → mapper α β → mapper α γ → mapper α δ

/-- Invocation of a mapper on an argument list.  `arg` and `val` invoke the
embedded callables; `unary` is `unary_operator_mapper::operator()`:
`(Operator{})(_value(args...))`; `binary` is
`binary_operator_mapper::operator()`:
`(Operator{})(_left(args...), _right(args...))`.  The composer overloads are
SFINAE-enabled only when both inner calls are well-formed (`typename Result =
decltype(...)`), hence `none` as soon as an inner call is not viable.  Both
composers return `std::decay_t<Result>`, i.e. plain values, which the
result types of the embedding already are. -/
def mapper.eval {α β : Type} : mapper α β → List α → Option β
  | .arg m, args => m.apply args
  | .val m, args => some (m.apply args)
  | .unary op inner, args => (inner.eval args).map op
  | .binary op l r, args =>
    match l.eval args, r.eval args with
    | some a, some b => some (op a b)
    | _, _ => none

/-- An operand of an operator overload, before wrapping: either a value whose
type satisfies `is_mapper_v` (a mapper), or a plain value of result type `β`. -/
inductive Operand (α β : Type) : Type 1 where
  | mapperOp : mapper α β → Operand α β
  | plainOp : β → Operand α β

/-- Embeds `is_mapper_v<Type>` (mappers.h lines 29-32) at the operand level:
true exactly on the mapper alternative. -/
def is_mapper_v {α β : Type} : Operand α β → Bool
  | .mapperOp _ => true
  | .plainOp _ => false

/-- Embeds `wrap_mapper<Type>` / `wrap_mapper_t` (mappers.h lines 95-104):
`std::conditional_t<is_mapper_v<Type>, Type, value_mapper<Type>>` — a mapper is
kept as-is, a plain value is wrapped into a `value_mapper` holding it. -/
def wrap_mapper {α β : Type} : Operand α β → mapper α β
  | .mapperOp m => m
  | .plainOp v => .val (value_mapper.mk v)

/-- Embeds the free binary operator overloads (mappers.h lines 159-433), which
are uniform in the operator: enabled (`enable_if`) only when
`is_mapper_v<Left> || is_mapper_v<Right>`, in which case they construct a
`binary_operator_mapper` from the two operands without evaluating the operator
(`none` = the overload is not viable and the native operator applies). -/
def binary_operator_overload {α β γ δ : Type} (op : β → γ → δ)
    (left : Operand α β) (right : Operand α γ) : Option (mapper α δ) :=
  if is_mapper_v left || is_mapper_v right then
    some (.binary op (wrap_mapper left) (wrap_mapper right))
  else
    none

/-- Embeds the free unary operator overloads (`operator-`, `operator!`,
`operator~`): enabled only when `is_mapper_v<Type>`, constructing a
`unary_operator_mapper` without evaluating the operator. -/
def unary_operator_overload {α β γ : Type} (op : β → γ)
    (value : Operand α β) : Option (mapper α γ) :=
  if is_mapper_v value then some (.unary op (wrap_mapper value)) else none

/-- Result of a selector invocation, tracking the C++ value category: `refTo i`
is a (forwarded) reference bound to the `i`-th argument object of the caller,
`byValue v` is a prvalue copy holding `v`.  Needed because
`argument_mapper::call` returns `decltype(auto)` (the reference is preserved)
while `argument_mapper::operator()` returns `auto` (the result decays to a
copy). -/
inductive call_result (α : Type) where
  | refTo (i : Nat)
  | byValue (v : α)
deriving DecidableEq

/-- Value-category view of `argument_mapper<Index>::call`: the same recursion
as `argument_mapper.call`, but returning which caller argument the
`decltype(auto)` result refers to.  The recursive case refers into the tail, so
the position is shifted by one on the way out. -/
def argument_mapper.call_ref {α : Type} : Nat → List α → Option Nat
  | 0, (_ : α) :: _ => some 0
  | n + 1, _ :: rest =>
    if n + 1 ≤ rest.length then (argument_mapper.call_ref n rest).map (· + 1) else none
  | _, [] => none

/-- Value-category view of `argument_mapper<Index>::operator()`: its return
type is `auto` deduced from `call(...)`, so the reference produced by `call`
decays and a copy of the referred argument is returned (`byValue`). -/
def argument_mapper.invoke_cat {α : Type} (m : argument_mapper) (args : List α) :
    Option (call_result α) :=
  if m.Index < args.length then
    match argument_mapper.call_ref m.Index args with
    | some i => (args[i]?).map call_result.byValue
    | none => none
  else none

/-- Writing `f` through a selector result: through a reference the write
reaches the argument object of the caller (the list cell is updated); through a
prvalue copy the arguments of the caller are untouched. -/
def mutate_through {α : Type} (args : List α) (r : call_result α) (f : α → α) : List α :=
  match r with
  | .refTo i =>
    match args[i]? with
    | some v => args.set i (f v)
    | none => args
  | .byValue _ => args

/-- Order in which a C++ compiler may evaluate the two argument expressions of
the call `(Operator{})(_left(args...), _right(args...))` in
`binary_operator_mapper::operator()` (mappers.h lines 142-151).  The two
evaluations are function arguments, hence indeterminately sequenced: either
order is a conforming execution, so the order is an explicit parameter of the
instrumented model. -/
inductive ArgOrder where
  | leftFirst
  | rightFirst
deriving DecidableEq

/-- Instrumented model of `binary_operator_mapper::operator()` with
side-effect-counting stand-ins for `_left` and `_right`: each operand returns
its value together with the list of effect tags it emits, and the trace of the
whole call concatenates the effects of the two operands in the order the compiler
chose. -/
def binary_invoke_instrumented {α β γ δ E : Type} (ord : ArgOrder) (op : β → γ → δ)
    (left : List α → β × List E) (right : List α → γ × List E) (args : List α) :
    δ × List E :=
  match ord with
  | .leftFirst =>
    let lr := left args
    let rr := right args
    (op lr.1 rr.1, lr.2 ++ rr.2)
  | .rightFirst =>
    let rr := right args
    let lr := left args
    (op lr.1 rr.1, rr.2 ++ lr.2)

/-- Class types of mappers.h together with plain (non-class or unrelated-class)
value types, for the type-level predicate `is_mapper_v`.  `plainValue id`
stands for an arbitrary type not derived from `base_mapper` (int, strings, user
structs, ...). -/
inductive CppBase where
  | baseMapper
  | argumentMapper (Index : Nat)
  | valueMapper
  | unaryOperatorMapper
  | binaryOperatorMapper
  | plainValue (id : Nat)
deriving DecidableEq

/-- Reference qualification of a C++ type. -/
inductive RefKind where
  | noRef
  | lvalueRef
  | rvalueRef
deriving DecidableEq

/-- A possibly cv- and ref-qualified C++ type over the bases above. -/
structure CppType where
  base : CppBase
  isConst : Bool
  isVolatile : Bool
  ref : RefKind
deriving DecidableEq

/-- Embeds `std::decay_t` as used by `is_mapper_v`: remove the reference, then
the cv-qualifiers (array/function decay does not arise for these types). -/
def decay_t (t : CppType) : CppType :=
  ⟨t.base, false, false, .noRef⟩

/-- Embeds `std::is_base_of_v<base_mapper, T>` on the closed set of bases:
`base_mapper` itself and the four mapper class templates derive from
`base_mapper`; plain value types do not. -/
def is_base_of_base_mapper : CppBase → Bool
  | .baseMapper => true
  | .argumentMapper _ => true
  | .valueMapper => true
  | .unaryOperatorMapper => true
  | .binaryOperatorMapper => true
  | .plainValue _ => false

/-- Embeds `is_mapper_v<Type>` (mappers.h lines 29-32) at the type level:
`std::is_base_of_v<base_mapper, std::decay_t<Type>>`. -/
def is_mapper_v_type (t : CppType) : Bool :=
  is_base_of_base_mapper (decay_t t).base

end details

namespace mappers

/-- Embeds `constexpr const details::argument_mapper<0> $1` (mappers.h line
440). -/
def «$1» : details.argument_mapper := ⟨0⟩

/-- Selector constant for the 2nd argument, `argument_mapper<1>`. -/
def «$2» : details.argument_mapper := ⟨1⟩

/-- Selector constant for the 3rd argument, `argument_mapper<2>`. -/
def «$3» : details.argument_mapper := ⟨2⟩

/-- Selector constant for the 4th argument, `argument_mapper<3>`. -/
def «$4» : details.argument_mapper := ⟨3⟩

/-- Selector constant for the 5th argument, `argument_mapper<4>`. -/
def «$5» : details.argument_mapper := ⟨4⟩

/-- Selector constant for the 6th argument, `argument_mapper<5>`. -/
def «$6» : details.argument_mapper := ⟨5⟩

/-- Selector constant for the 7th argument, `argument_mapper<6>`. -/
def «$7» : details.argument_mapper := ⟨6⟩

/-- Selector constant for the 8th argument, `argument_mapper<7>`. -/
def «$8» : details.argument_mapper := ⟨7⟩

/-- Selector constant for the 9th argument, `argument_mapper<8>`. -/
def «$9» : details.argument_mapper := ⟨8⟩

/-- Selector constant for the 10th argument, `argument_mapper<9>`. -/
def «$10» : details.argument_mapper := ⟨9⟩

/-- Selector constant for the 11th argument, `argument_mapper<10>`. -/
def «$11» : details.argument_mapper := ⟨10⟩

/-- Selector constant for the 12th argument, `argument_mapper<11>`. -/
def «$12» : details.argument_mapper := ⟨11⟩

/-- Selector constant for the 13th argument, `argument_mapper<12>`. -/
def «$13» : details.argument_mapper := ⟨12⟩

/-- Selector constant for the 14th argument, `argument_mapper<13>`. -/
def «$14» : details.argument_mapper := ⟨13⟩

/-- Selector constant for the 15th argument, `argument_mapper<14>`. -/
def «$15» : details.argument_mapper := ⟨14⟩

/-- Selector constant for the 16th argument, `argument_mapper<15>`. -/
def «$16» : details.argument_mapper := ⟨15⟩

/-- Selector constant for the 17th argument, `argument_mapper<16>`. -/
def «$17» : details.argument_mapper := ⟨16⟩

/-- Selector constant for the 18th argument, `argument_mapper<17>`. -/
def «$18» : details.argument_mapper := ⟨17⟩

/-- Selector constant for the 19th argument, `argument_mapper<18>`. -/
def «$19» : details.argument_mapper := ⟨18⟩

/-- Selector constant for the 20th argument, `argument_mapper<19>`. -/
def «$20» : details.argument_mapper := ⟨19⟩

/-- Embeds `$val` (mappers.h lines 460-463): builds a value wrapper from an
arbitrary value via `details::make_value_mapper`. -/
def «$val» {β : Type} (value : β) : details.value_mapper β :=
  details.make_value_mapper value

end mappers

end rpl

open rpl.details rpl.mappers

/-- Helper: when the index is in range, `argument_mapper::call` returns the
selected element. -/
theorem argument_mapper_call_eq_get {α : Type} (n : Nat) (args : List α)
    (h : n < args.length) :
    rpl.details.argument_mapper.call n args = some (args.get ⟨n, h⟩) := by
  induction n generalizing args with
  | zero =>
    cases args with
    | nil => simp at h
    | cons a rest => simp [rpl.details.argument_mapper.call]
  | succ n ih =>
    cases args with
    | nil => simp at h
    | cons a rest =>
      have hr : n < rest.length := by simpa using h
      simp [rpl.details.argument_mapper.call, Nat.succ_le_of_lt hr, ih rest hr]

/-- Helper: `argument_mapper::operator()` agrees with optional list indexing:
it returns the element at the stored index when the list is long enough and is
not viable (`none`) otherwise. -/
theorem argument_mapper_apply_eq_getElem {α : Type} (m : rpl.details.argument_mapper)
    (args : List α) :
    m.apply args = args[m.Index]? := by
  unfold rpl.details.argument_mapper.apply
  by_cases h : m.Index < args.length
  · rw [if_pos h, argument_mapper_call_eq_get m.Index args h]
    simp [List.getElem?_eq_getElem h]
  · rw [if_neg h, List.getElem?_eq_none (Nat.le_of_not_lt h)]

/-- Helper: when the index is in range, the `decltype(auto)` result of
`argument_mapper::call` is a reference to exactly the selected argument
position. -/
theorem argument_mapper_call_ref_eq {α : Type} (n : Nat) (args : List α)
    (h : n < args.length) :
    rpl.details.argument_mapper.call_ref (α := α) n args = some n := by
  induction n generalizing args with
  | zero =>
    cases args with
    | nil => simp at h
    | cons a rest => simp [rpl.details.argument_mapper.call_ref]
  | succ n ih =>
    cases args with
    | nil => simp at h
    | cons a rest =>
      have hr : n < rest.length := by simpa using h
      simp [rpl.details.argument_mapper.call_ref, Nat.succ_le_of_lt hr, ih rest hr]

/-- C1: for every index `N` and argument list of length `> N`, invoking
`argument_mapper<N>` returns the `N`-th argument unchanged, and the selection
follows the source recursion: the primary template forwards
`call(first, rest...)` to `argument_mapper<N-1>::call(rest...)` (enabled when
the tail has at least `N` elements), and `argument_mapper<0>::call` returns its
first argument. -/
theorem C1_selector_identity_and_recursion {α : Type} (n : Nat) (args : List α)
    (h : n < args.length) :
    (rpl.details.argument_mapper.mk n).apply args = some (args.get ⟨n, h⟩)
    ∧ (∀ (a : α) (rest : List α), n + 1 ≤ rest.length →
        rpl.details.argument_mapper.call (n + 1) (a :: rest)
          = rpl.details.argument_mapper.call n rest)
    ∧ (∀ (a : α) (rest : List α),
        rpl.details.argument_mapper.call 0 (a :: rest) = some a) := by
  refine ⟨?_, ?_, ?_⟩
  · unfold rpl.details.argument_mapper.apply
    rw [if_pos h]
    exact argument_mapper_call_eq_get n args h
  · intro a rest hr
    simp [rpl.details.argument_mapper.call, hr]
  · intro a rest
    simp [rpl.details.argument_mapper.call]

/-- Witness for C1 at index 1 on the list `[10, 20, 30]`. -/
theorem C1_selector_identity_and_recursion_witness :
    (rpl.details.argument_mapper.mk 1).apply ([10, 20, 30] : List Nat) = some 20 :=
  (C1_selector_identity_and_recursion 1 ([10, 20, 30] : List Nat) (by decide)).1

/-- C2: a value wrapper built from `v` returns (a copy of) `v` on every
invocation, the empty argument list included, ignoring the arguments; the same
holds for its embedding into the mapper algebra. -/
theorem C2_value_wrapper_ignores_arguments {α β : Type} (v : β) (args : List α) :
    (rpl.details.make_value_mapper v).apply args = v
    ∧ (rpl.details.make_value_mapper v).apply ([] : List α) = v
    ∧ (rpl.details.mapper.val (rpl.details.make_value_mapper v)).eval args = some v :=
  ⟨rfl, rfl, rfl⟩

/-- C3: invoking a composed mapper applies the native operator to the two
separately-invoked results on the same argument list, for an arbitrary
supported binary operator (the source overloads are uniform in the operator
function object), and likewise for a unary operator. -/
theorem C3_composer_applies_operator_to_results {α β γ δ ε : Type}
    (op : β → γ → δ) (uop : β → ε) (m1 : rpl.details.mapper α β)
    (m2 : rpl.details.mapper α γ) (args : List α) (b : β) (c : γ)
    (h1 : m1.eval args = some b) (h2 : m2.eval args = some c) :
    (rpl.details.mapper.binary op m1 m2).eval args = some (op b c)
    ∧ (rpl.details.mapper.unary uop m1).eval args = some (uop b) := by
  constructor
  · simp [rpl.details.mapper.eval, h1, h2]
  · simp [rpl.details.mapper.eval, h1]

/-- Witness for C3: `($1 * $2)([3, 4]) = 12` and `(fun a => a + 1) ∘ $1` on
`[3, 4]` gives `4`. -/
theorem C3_composer_applies_operator_to_results_witness :
    (rpl.details.mapper.binary (fun a b : Nat => a * b)
      (rpl.details.mapper.arg rpl.mappers.«$1»)
      (rpl.details.mapper.arg rpl.mappers.«$2»)).eval [3, 4] = some 12
    ∧ (rpl.details.mapper.unary (fun a : Nat => a + 1)
      (rpl.details.mapper.arg rpl.mappers.«$1»)).eval [3, 4] = some 4 :=
  C3_composer_applies_operator_to_results (fun a b : Nat => a * b) (fun a : Nat => a + 1)
    (rpl.details.mapper.arg rpl.mappers.«$1») (rpl.details.mapper.arg rpl.mappers.«$2»)
    [3, 4] 3 4 rfl rfl

/-- C4: the wrapping rule keeps a mapper as-is and wraps a plain value into a
`value_mapper` holding it, in accordance with the capability predicate, and on
mappers the wrap is a no-op for invocation behavior. -/
theorem C4_wrap_rule_idempotent_on_mappers {α β : Type} (m : rpl.details.mapper α β)
    (v : β) (args : List α) :
    rpl.details.wrap_mapper (rpl.details.Operand.mapperOp m) = m
    ∧ rpl.details.wrap_mapper (rpl.details.Operand.plainOp (α := α) v)
        = rpl.details.mapper.val (rpl.details.value_mapper.mk v)
    ∧ rpl.details.is_mapper_v (rpl.details.Operand.mapperOp m) = true
    ∧ rpl.details.is_mapper_v (rpl.details.Operand.plainOp (α := α) v) = false
    ∧ (rpl.details.wrap_mapper (rpl.details.Operand.mapperOp m)).eval args = m.eval args :=
  ⟨rfl, rfl, rfl, rfl, rfl⟩

/-- C5: the public vocabulary: each of the twenty selector constants is the
positional selector of the corresponding zero-based index, it returns the
`k`-th argument (1-based) of every sufficiently long list (optional indexing),
and `$val` builds a value wrapper returning the stored value. -/
theorem C5_public_vocabulary {α : Type} (args : List α) (v : α) :
    (rpl.mappers.«$1».Index = 0 ∧ rpl.mappers.«$1».apply args = args[0]?)
    ∧ (rpl.mappers.«$2».Index = 1 ∧ rpl.mappers.«$2».apply args = args[1]?)
    ∧ (rpl.mappers.«$3».Index = 2 ∧ rpl.mappers.«$3».apply args = args[2]?)
    ∧ (rpl.mappers.«$4».Index = 3 ∧ rpl.mappers.«$4».apply args = args[3]?)
    ∧ (rpl.mappers.«$5».Index = 4 ∧ rpl.mappers.«$5».apply args = args[4]?)
    ∧ (rpl.mappers.«$6».Index = 5 ∧ rpl.mappers.«$6».apply args = args[5]?)
    ∧ (rpl.mappers.«$7».Index = 6 ∧ rpl.mappers.«$7».apply args = args[6]?)
    ∧ (rpl.mappers.«$8».Index = 7 ∧ rpl.mappers.«$8».apply args = args[7]?)
    ∧ (rpl.mappers.«$9».Index = 8 ∧ rpl.mappers.«$9».apply args = args[8]?)
    ∧ (rpl.mappers.«$10».Index = 9 ∧ rpl.mappers.«$10».apply args = args[9]?)
    ∧ (rpl.mappers.«$11».Index = 10 ∧ rpl.mappers.«$11».apply args = args[10]?)
    ∧ (rpl.mappers.«$12».Index = 11 ∧ rpl.mappers.«$12».apply args = args[11]?)
    ∧ (rpl.mappers.«$13».Index = 12 ∧ rpl.mappers.«$13».apply args = args[12]?)
    ∧ (rpl.mappers.«$14».Index = 13 ∧ rpl.mappers.«$14».apply args = args[13]?)
    ∧ (rpl.mappers.«$15».Index = 14 ∧ rpl.mappers.«$15».apply args = args[14]?)
    ∧ (rpl.mappers.«$16».Index = 15 ∧ rpl.mappers.«$16».apply args = args[15]?)
    ∧ (rpl.mappers.«$17».Index = 16 ∧ rpl.mappers.«$17».apply args = args[16]?)
    ∧ (rpl.mappers.«$18».Index = 17 ∧ rpl.mappers.«$18».apply args = args[17]?)
    ∧ (rpl.mappers.«$19».Index = 18 ∧ rpl.mappers.«$19».apply args = args[18]?)
    ∧ (rpl.mappers.«$20».Index = 19 ∧ rpl.mappers.«$20».apply args = args[19]?)
    ∧ (rpl.mappers.«$val» v).apply args = v :=
  ⟨⟨rfl, argument_mapper_apply_eq_getElem _ _⟩, ⟨rfl, argument_mapper_apply_eq_getElem _ _⟩,
   ⟨rfl, argument_mapper_apply_eq_getElem _ _⟩, ⟨rfl, argument_mapper_apply_eq_getElem _ _⟩,
   ⟨rfl, argument_mapper_apply_eq_getElem _ _⟩, ⟨rfl, argument_mapper_apply_eq_getElem _ _⟩,
   ⟨rfl, argument_mapper_apply_eq_getElem _ _⟩, ⟨rfl, argument_mapper_apply_eq_getElem _ _⟩,
   ⟨rfl, argument_mapper_apply_eq_getElem _ _⟩, ⟨rfl, argument_mapper_apply_eq_getElem _ _⟩,
   ⟨rfl, argument_mapper_apply_eq_getElem _ _⟩, ⟨rfl, argument_mapper_apply_eq_getElem _ _⟩,
   ⟨rfl, argument_mapper_apply_eq_getElem _ _⟩, ⟨rfl, argument_mapper_apply_eq_getElem _ _⟩,
   ⟨rfl, argument_mapper_apply_eq_getElem _ _⟩, ⟨rfl, argument_mapper_apply_eq_getElem _ _⟩,
   ⟨rfl, argument_mapper_apply_eq_getElem _ _⟩, ⟨rfl, argument_mapper_apply_eq_getElem _ _⟩,
   ⟨rfl, argument_mapper_apply_eq_getElem _ _⟩, ⟨rfl, argument_mapper_apply_eq_getElem _ _⟩,
   rfl⟩

/-- C6: invoking `argument_mapper<N>` on a list with at most `N` elements is
not a viable call (the `enable_if` condition fails), embedded as `none`. -/
theorem C6_selector_not_viable_on_short_list {α : Type} (n : Nat) (args : List α)
    (h : args.length ≤ n) :
    (rpl.details.argument_mapper.mk n).apply args = none := by
  have hn : ¬ ((rpl.details.argument_mapper.mk n).Index < args.length) := by
    simpa using Nat.not_lt.mpr h
  simp [rpl.details.argument_mapper.apply, hn]

/-- Witness for C6: `argument_mapper<2>` on the one-element list `[5]`. -/
theorem C6_selector_not_viable_on_short_list_witness :
    (rpl.details.argument_mapper.mk 2).apply ([5] : List Nat) = none :=
  C6_selector_not_viable_on_short_list 2 ([5] : List Nat) (by decide)

/-- C7: the free operator overloads are viable exactly when at least one
operand is a mapper (all four operand shapes covered), in which case they
return the composer constructor holding the wrapped operands unevaluated; with
two plain operands the overload is not viable and native behavior is untouched
(`none`); the unary overloads require the operand to be a mapper; evaluation of
the constructed composer is deferred: invoking it combines the operand results
with the operator. -/
theorem C7_operator_overloads_construct_deferred_composer {α β γ δ ε : Type}
    (op : β → γ → δ) (uop : β → ε) (m1 : rpl.details.mapper α β)
    (m2 : rpl.details.mapper α γ) (v : β) (w : γ) (args : List α) :
    rpl.details.binary_operator_overload op (.mapperOp m1) (.mapperOp m2)
      = some (rpl.details.mapper.binary op m1 m2)
    ∧ rpl.details.binary_operator_overload op (.mapperOp m1) (.plainOp w)
      = some (rpl.details.mapper.binary op m1 (.val ⟨w⟩))
    ∧ rpl.details.binary_operator_overload op (.plainOp v) (.mapperOp m2)
      = some (rpl.details.mapper.binary op (.val ⟨v⟩) m2)
    ∧ rpl.details.binary_operator_overload (α := α) op (.plainOp v) (.plainOp w) = none
    ∧ rpl.details.unary_operator_overload uop (.mapperOp m1)
      = some (rpl.details.mapper.unary uop m1)
    ∧ rpl.details.unary_operator_overload (α := α) uop (.plainOp v) = none
    ∧ (rpl.details.mapper.binary op m1 m2).eval args
      = (m1.eval args).bind (fun b => (m2.eval args).map (fun c => op b c)) := by
  refine ⟨rfl, rfl, rfl, rfl, rfl, rfl, ?_⟩
  cases h1 : m1.eval args <;> cases h2 : m2.eval args <;>
    simp [rpl.details.mapper.eval, h1, h2]

/-- C8 counterexample: `argument_mapper<0>::operator()` on the one-argument
list `[3]` returns a decayed by-value copy of the argument (its return type is
`auto`, not `decltype(auto)`), so mutating through the invocation result leaves
the original argument list `[3]` unchanged, where the claim demands that the
mutation reach the original (which would give `[4]`). -/
theorem C8_selector_invocation_copies_counterexample :
    (rpl.details.argument_mapper.mk 0).invoke_cat ([3] : List Nat)
      = some (rpl.details.call_result.byValue 3)
    ∧ ((rpl.details.argument_mapper.mk 0).invoke_cat ([3] : List Nat)).map
        (fun r => rpl.details.mutate_through [3] r (fun x => x + 1)) = some [3]
    ∧ some ([3] : List Nat) ≠ some ([4] : List Nat) :=
  ⟨rfl, rfl, by decide⟩

/-- C8 amended: the static `argument_mapper::call` (return type
`decltype(auto)`) does preserve the reference category — its result refers to
the selected argument itself, and mutating through that reference updates the
original — but the public `operator()` (return type `auto`) returns the
selected argument decayed to a by-value copy, and mutating through that copy
leaves the original arguments unchanged. -/
theorem C8_call_preserves_reference_but_invoke_copies {α : Type} (n : Nat)
    (args : List α) (h : n < args.length) (f : α → α) :
    rpl.details.argument_mapper.call_ref (α := α) n args = some n
    ∧ rpl.details.mutate_through args (rpl.details.call_result.refTo n) f
        = args.set n (f (args.get ⟨n, h⟩))
    ∧ (rpl.details.argument_mapper.mk n).invoke_cat args
        = some (rpl.details.call_result.byValue (args.get ⟨n, h⟩))
    ∧ rpl.details.mutate_through args
        (rpl.details.call_result.byValue (args.get ⟨n, h⟩)) f = args := by
  have hget : args[n]? = some (args.get ⟨n, h⟩) := by
    simp [List.getElem?_eq_getElem h]
  refine ⟨argument_mapper_call_ref_eq n args h, ?_, ?_, rfl⟩
  · simp [rpl.details.mutate_through, hget]
  · unfold rpl.details.argument_mapper.invoke_cat
    rw [if_pos h, argument_mapper_call_ref_eq n args h]
    simp [hget]

/-- Witness for the amended C8 at index 1 on `[3, 4]` with the mutation
`x + 1`: the reference view selects position 1 and mutating through it yields
`[3, 5]`, while `operator()` yields the copy `4` and mutating through it leaves
`[3, 4]` unchanged. -/
theorem C8_call_preserves_reference_but_invoke_copies_witness :
    rpl.details.argument_mapper.call_ref (α := Nat) 1 [3, 4] = some 1
    ∧ rpl.details.mutate_through [3, 4] (rpl.details.call_result.refTo 1)
        (fun x => x + 1) = [3, 5]
    ∧ (rpl.details.argument_mapper.mk 1).invoke_cat ([3, 4] : List Nat)
        = some (rpl.details.call_result.byValue 4)
    ∧ rpl.details.mutate_through [3, 4] (rpl.details.call_result.byValue 4)
        (fun x => x + 1) = [3, 4] :=
  C8_call_preserves_reference_but_invoke_copies 1 ([3, 4] : List Nat) (by decide)
    (fun x => x + 1)

/-- C9 counterexample: evaluating the two operand calls of
`binary_operator_mapper::operator()` right-first is a conforming execution
(function arguments are indeterminately sequenced in C++), and with counting
stand-ins it produces the trace `[1, 0]` — the effect of the right operand is
observed before the effect of the left operand, contradicting the claim that
the left effect is always observed first. -/
theorem C9_right_first_execution_counterexample :
    (rpl.details.binary_invoke_instrumented rpl.details.ArgOrder.rightFirst
      (fun a b : Nat => a + b)
      (fun _ : List Nat => (1, [0]))
      (fun _ : List Nat => (2, [1]))
      []).2 = [1, 0]
    ∧ ([1, 0] : List Nat) ≠ [0, 1] :=
  ⟨rfl, by decide⟩

/-- C9 amended: the two operand evaluations of a binary composer invocation
are indeterminately sequenced, so either order may be observed; under every
conforming order the returned value is the operator applied to the left and
right results, the observed trace is one of the two concatenations of the
operand effects, and in the left-first execution the left effect does come
first. -/
theorem C9_evaluation_order_unspecified {α β γ δ E : Type}
    (ord : rpl.details.ArgOrder) (op : β → γ → δ)
    (left : List α → β × List E) (right : List α → γ × List E) (args : List α) :
    (rpl.details.binary_invoke_instrumented ord op left right args).1
      = op (left args).1 (right args).1
    ∧ ((rpl.details.binary_invoke_instrumented ord op left right args).2
        = (left args).2 ++ (right args).2
      ∨ (rpl.details.binary_invoke_instrumented ord op left right args).2
        = (right args).2 ++ (left args).2)
    ∧ (rpl.details.binary_invoke_instrumented rpl.details.ArgOrder.leftFirst
        op left right args).2 = (left args).2 ++ (right args).2 := by
  refine ⟨?_, ?_, rfl⟩ <;>
    cases ord <;> simp [rpl.details.binary_invoke_instrumented]

/-- C10: the mapper capability predicate is invariant under reference and
cv-qualification (it tests the decayed type), it holds of all four mapper
variants under every qualification, it fails for every plain value type, and in
general it coincides with derivation from the capability marker `base_mapper`
on the decayed base. -/
theorem C10_is_mapper_v_qualification_invariant (b : rpl.details.CppBase)
    (c v : Bool) (r : rpl.details.RefKind) (n m : Nat) :
    rpl.details.is_mapper_v_type ⟨b, c, v, r⟩
      = rpl.details.is_mapper_v_type ⟨b, false, false, .noRef⟩
    ∧ rpl.details.is_mapper_v_type ⟨.argumentMapper n, c, v, r⟩ = true
    ∧ rpl.details.is_mapper_v_type ⟨.valueMapper, c, v, r⟩ = true
    ∧ rpl.details.is_mapper_v_type ⟨.unaryOperatorMapper, c, v, r⟩ = true
    ∧ rpl.details.is_mapper_v_type ⟨.binaryOperatorMapper, c, v, r⟩ = true
    ∧ rpl.details.is_mapper_v_type ⟨.plainValue m, c, v, r⟩ = false
    ∧ rpl.details.is_mapper_v_type ⟨b, c, v, r⟩ = rpl.details.is_base_of_base_mapper b :=
  ⟨rfl, rfl, rfl, rfl, rfl, rfl, rfl⟩
